import Mathlib

/-
Verification of the ISO 9660 cloud-init seed image builder
(src/extensions/models/cloud_init_iso.ts, function makeCloudInitIso).

The builder is a pure function from two UTF-8 text payloads (user-data and
meta-data) to a byte buffer.  We embed it shallowly: a Uint8Array is a
List Nat whose elements are byte values, and the two text inputs are taken
as their UTF-8 byte encodings (TextEncoder.encode's output), so quantifying
over arbitrary byte lists covers every pair of input strings.  Uint8Array.set
becomes the splice operation setArr, Uint8Array.fill becomes fillTo, and
JavaScript's 32-bit shift-and-mask arithmetic (v & 0xFF, (v >> 8) & 0xFF, ...)
becomes explicit Nat arithmetic on v % 2^32.  Append chains are grouped
right-associatively; this is only a grouping of the same sequential writes.
-/

set_option maxRecDepth 10000

namespace CloudInitIso

/-- Model of `Uint8Array.prototype.set`: splice the source list `s` into the
buffer `b` at offset `o` (every use in the builder stays within bounds). -/
def setArr (b : List Nat) (o : Nat) (s : List Nat) : List Nat :=
  b.take o ++ (s ++ b.drop (o + s.length))

/-- Model of `Uint8Array.prototype.fill(v, a, c)`: fill positions [a, c) with v. -/
def fillTo (b : List Nat) (v a c : Nat) : List Nat :=
  setArr b a (List.replicate (c - a) v)

/-- Contiguous read of `l` bytes starting at offset `o`. -/
def slice (b : List Nat) (o l : Nat) : List Nat :=
  (b.drop o).take l

/-- Little-endian decoding of the `n` bytes at offset `o`. -/
def readLE (b : List Nat) (o n : Nat) : Nat :=
  (slice b o n).reverse.foldl (fun a d => a * 256 + d) 0

/-- Big-endian decoding of the `n` bytes at offset `o`. -/
def readBE (b : List Nat) (o n : Nat) : Nat :=
  (slice b o n).foldl (fun a d => a * 256 + d) 0

/-- Model of `u32b` (cloud_init_iso.ts lines 24-27): a 32-bit value as
little-endian bytes immediately followed by big-endian bytes.  The source
computes each byte with JavaScript shift-and-mask arithmetic, which coincides
with the digit decomposition of `v % 2^32`. -/
def u32b (v : Nat) : List Nat :=
  let w := v % 4294967296
  [w % 256, w / 256 % 256, w / 65536 % 256, w / 16777216 % 256,
   w / 16777216 % 256, w / 65536 % 256, w / 256 % 256, w % 256]

/-- Model of `u16b` (cloud_init_iso.ts line 28): 16-bit both-endian field. -/
def u16b (v : Nat) : List Nat :=
  let w := v % 4294967296
  [w % 256, w / 256 % 256, w / 256 % 256, w % 256]

/-- Model of `dirRecord` (cloud_init_iso.ts lines 30-45).  The source
allocates `33 + nl` bytes plus one zero pad byte when the name length is even,
and writes the fields sequentially; the pad byte stays zero.  Byte stores in a
Uint8Array truncate to 8 bits, hence the `% 256` on the stored scalars. -/
def dirRecord (nameBytes : List Nat) (isDir : Bool) (extentLba dataLen : Nat) : List Nat :=
  let nl := nameBytes.length
  let recLen := 33 + nl + (if nl % 2 = 0 then 1 else 0)
  [recLen % 256, 0] ++ (u32b extentLba ++ (u32b dataLen ++
    ([126, 2, 21, 0, 0, 0, 0] ++ ([if isDir then 2 else 0] ++ ([0, 0] ++
    (u16b 1 ++ ([nl % 256] ++ (nameBytes ++ (if nl % 2 = 0 then [0] else [])))))))))

/-- UTF-8 bytes of "META-DATA". -/
def metaName : List Nat := [77, 69, 84, 65, 45, 68, 65, 84, 65]

/-- UTF-8 bytes of "USER-DATA". -/
def userName : List Nat := [85, 83, 69, 82, 45, 68, 65, 84, 65]

/-- UTF-8 bytes of "CD001". -/
def cd001 : List Nat := [67, 68, 48, 48, 49]

/-- UTF-8 bytes of "CIDATA". -/
def cidata : List Nat := [67, 73, 68, 65, 84, 65]

/-- The "." directory record (cloud_init_iso.ts line 47). -/
def dotRec : List Nat := dirRecord [0] true 18 2048

/-- The ".." directory record (cloud_init_iso.ts line 48). -/
def dotdotRec : List Nat := dirRecord [1] true 18 2048

/-- Sectors occupied by a payload of `len` bytes: the source computes
`Math.ceil(len / 2048) || 1` (cloud_init_iso.ts line 20). -/
def sectorsFor (len : Nat) : Nat :=
  let c := (len + 2047) / 2048
  if c = 0 then 1 else c

/-- Model of the extents loop (cloud_init_iso.ts lines 16-22): starting from
`lba`, record each file's starting LBA and advance by its sector count;
returns the extents in file order together with the final counter value
(`totalSectors`). -/
def assignExtents : Nat → List Nat → List Nat × Nat
  | lba, [] => ([], lba)
  | lba, n :: rest =>
    let r := assignExtents (lba + sectorsFor n) rest
    (lba :: r.1, r.2)

/-- Extents of the two files, in the order of the `files` array
(META-DATA first, then USER-DATA), for payload byte lengths `ml` and `ul`. -/
def extentsList (ml ul : Nat) : List Nat := (assignExtents 19 [ml, ul]).1

/-- Total sector count of the image (cloud_init_iso.ts line 22). -/
def totalSectorsOf (ml ul : Nat) : Nat := (assignExtents 19 [ml, ul]).2

/-- The root directory sector (cloud_init_iso.ts lines 47-57): a zeroed sector
into which dot, dotdot, META-DATA and USER-DATA records are packed
back-to-back from offset 0, each at the running offset `doff`. -/
def rootDirOf (ml ul : Nat) : List Nat :=
  let metaRec := dirRecord metaName false ((extentsList ml ul).getD 0 0) ml
  let userRec := dirRecord userName false ((extentsList ml ul).getD 1 0) ul
  let r0 := List.replicate 2048 0
  let r1 := setArr r0 0 dotRec
  let r2 := setArr r1 dotRec.length dotdotRec
  let r3 := setArr r2 (dotRec.length + dotdotRec.length) metaRec
  setArr r3 (dotRec.length + dotdotRec.length + metaRec.length) userRec

/-- The Primary Volume Descriptor sector (cloud_init_iso.ts lines 59-70),
parameterised by the total sector count `t`. -/
def pvdOf (t : Nat) : List Nat :=
  let d16 := List.replicate 16 48
  let p0 := List.replicate 2048 0
  let p1 := setArr p0 0 [1]
  let p2 := setArr p1 1 cd001
  let p3 := setArr p2 6 [1]
  let p4 := fillTo p3 32 8 40
  let p5 := setArr p4 40 cidata
  let p6 := fillTo p5 32 46 72
  let p7 := setArr p6 80 (u32b t)
  let p8 := setArr p7 120 (u16b 1)
  let p9 := setArr p8 124 (u16b 1)
  let p10 := setArr p9 128 (u16b 2048)
  let p11 := setArr p10 132 (u32b 0)
  let p12 := setArr p11 156 dotRec
  let p13 := fillTo p12 32 190 813
  let p14 := setArr (setArr p13 813 d16) 829 [0]
  let p15 := setArr (setArr p14 830 d16) 846 [0]
  let p16 := setArr (setArr p15 847 d16) 863 [0]
  let p17 := setArr (setArr p16 864 d16) 880 [0]
  setArr p17 881 [1]

/-- The Volume Descriptor Set Terminator sector (cloud_init_iso.ts lines 72-73). -/
def vdst : List Nat :=
  setArr (setArr (setArr (List.replicate 2048 0) 0 [255]) 1 cd001) 6 [1]

/-- Model of `makeCloudInitIso` (cloud_init_iso.ts lines 6-79) on the UTF-8
byte encodings of the two inputs: allocate a zeroed buffer of
`totalSectors * 2048` bytes, write PVD, VDST and root directory at LBAs
16, 17, 18, then copy each file's payload at its extent. -/
def makeCloudInitIso (userData metaData : List Nat) : List Nat :=
  let ml := metaData.length
  let ul := userData.length
  let extents := extentsList ml ul
  let totalSectors := totalSectorsOf ml ul
  let iso0 := List.replicate (totalSectors * 2048) 0
  let iso1 := setArr iso0 (16 * 2048) (pvdOf totalSectors)
  let iso2 := setArr iso1 (17 * 2048) vdst
  let iso3 := setArr iso2 (18 * 2048) (rootDirOf ml ul)
  let iso4 := setArr iso3 (extents.getD 0 0 * 2048) metaData
  setArr iso4 (extents.getD 1 0 * 2048) userData

/-- The PVD sector flattened into its consecutive byte regions (proved equal
to `pvdOf` below): type/id/version bytes, space padding, the CIDATA volume
identifier, volume space size at offset 80, block size and path table fields,
the embedded root directory record at 156, and the zero-terminated
16-digit date fields. -/
def pvdList (t : Nat) : List Nat :=
  [1] ++ (cd001 ++ ([1] ++ ([0] ++ (List.replicate 32 32 ++ (cidata ++
    (List.replicate 26 32 ++ (List.replicate 8 0 ++ (u32b t ++ (List.replicate 32 0 ++
    (u16b 1 ++ (u16b 1 ++ (u16b 2048 ++ (u32b 0 ++ (List.replicate 16 0 ++ (dotRec ++
    (List.replicate 623 32 ++ (List.replicate 16 48 ++ ([0] ++ (List.replicate 16 48 ++
    ([0] ++ (List.replicate 16 48 ++ ([0] ++ (List.replicate 16 48 ++ ([0] ++ ([1] ++
    List.replicate 1166 0)))))))))))))))))))))))))

/-- The root directory sector flattened: dot, dotdot, META-DATA and USER-DATA
records packed back-to-back, then zero fill. -/
def rootList (ml ul : Nat) : List Nat :=
  dotRec ++ (dotdotRec ++ (dirRecord metaName false 19 ml ++
    (dirRecord userName false (19 + sectorsFor ml) ul ++ List.replicate 1896 0)))

/-- The VDST sector flattened. -/
def vdstList : List Nat :=
  [255] ++ (cd001 ++ ([1] ++ List.replicate 2041 0))

/-- A parsed directory record, as described by the spec's reader: the record's
self-declared total length, extent LBA and data length (decoded from the
little-endian halves of the both-endian fields), the flags byte, and the raw
name bytes. -/
@[ext]
structure DirEnt where
  recLen : Nat
  extent : Nat
  dataLen : Nat
  flags : Nat
  name : List Nat
deriving DecidableEq

/-- Decode one directory record from its raw bytes: byte 0 is the total
length, bytes 2-5 the little-endian extent LBA, bytes 10-13 the little-endian
data length, byte 25 the flags, byte 32 the name length and bytes 33+ the name. -/
def mkEnt (rec : List Nat) : DirEnt :=
  { recLen := rec.getD 0 0
    extent := readLE rec 2 4
    dataLen := readLE rec 10 4
    flags := rec.getD 25 0
    name := slice rec 33 (rec.getD 32 0) }

/-- Walk a directory sector as a sequence of self-length-prefixed records
packed back-to-back from offset 0, stopping at a zero length byte
(the reader described by the spec). -/
def parseRecs : Nat → List Nat → List DirEnt
  | 0, _ => []
  | _ + 1, [] => []
  | fuel + 1, len :: rest =>
    if len = 0 then []
    else mkEnt ((len :: rest).take len) :: parseRecs fuel ((len :: rest).drop len)

/-- Parse the root directory sector (LBA 18) of an image. -/
def parseRootDir (iso : List Nat) : List DirEnt :=
  parseRecs 2048 (slice iso (18 * 2048) 2048)

/-- Extract a named file's bytes from an image, per the spec's round-trip
reader: find the root-directory entry with the given name and read exactly
`dataLen` bytes starting at byte offset `extent * 2048`. -/
def extractNamed (iso nm : List Nat) : Option (List Nat) :=
  ((parseRootDir iso).find? (fun e => e.name == nm)).map
    (fun e => slice iso (e.extent * 2048) e.dataLen)

/-- Right-trim space bytes (0x20). -/
def rtrimSpace (l : List Nat) : List Nat :=
  (l.reverse.dropWhile (fun b => b == 32)).reverse

/-- The parsed "." entry. -/
def dotEnt : DirEnt := ⟨34, 18, 2048, 2, [0]⟩

/-- The parsed ".." entry. -/
def dotdotEnt : DirEnt := ⟨34, 18, 2048, 2, [1]⟩

/-- The parsed META-DATA entry for a meta-data payload of `ml` bytes. -/
def metaEnt (ml : Nat) : DirEnt := ⟨42, 19, ml, 0, metaName⟩

/-- The parsed USER-DATA entry for payload byte lengths `ml` and `ul`. -/
def userEnt (ml ul : Nat) : DirEnt := ⟨42, 19 + sectorsFor ml, ul, 0, userName⟩

/-- UTF-8 bytes of "#cloud-config\nhostname: myvm\n" (29 bytes). -/
def exampleUserData : List Nat :=
  [35, 99, 108, 111, 117, 100, 45, 99, 111, 110, 102, 105, 103, 10,
   104, 111, 115, 116, 110, 97, 109, 101, 58, 32, 109, 121, 118, 109, 10]

/-- UTF-8 bytes of "instance-id: myvm\n" (18 bytes). -/
def exampleMetaData : List Nat :=
  [105, 110, 115, 116, 97, 110, 99, 101, 45, 105, 100, 58, 32,
   109, 121, 118, 109, 10]


-- Block length facts (all cheap single-layer computations).

@[simp] theorem u32b_length (v : Nat) : (u32b v).length = 8 := rfl

@[simp] theorem u16b_length (v : Nat) : (u16b v).length = 4 := rfl

@[simp] theorem cd001_length : cd001.length = 5 := rfl

@[simp] theorem cidata_length : cidata.length = 6 := rfl

@[simp] theorem dotRec_length : dotRec.length = 34 := rfl

@[simp] theorem dotdotRec_length : dotdotRec.length = 34 := rfl

@[simp] theorem metaRec_length (e l : Nat) : (dirRecord metaName false e l).length = 42 := rfl

@[simp] theorem userRec_length (e l : Nat) : (dirRecord userName false e l).length = 42 := rfl

/-- Writing `s` at offset `o` into a buffer that is a fully-written prefix `X`
followed by untouched fill lands entirely in the fill region: the result is
the prefix, `g` fill bytes of gap, the written block, and `j` remaining fill
bytes. -/
theorem setArr_flat (X s : List Nat) (k x o g j : Nat)
    (hg : o = X.length + g) (hj : X.length + k = o + s.length + j) :
    setArr (X ++ List.replicate k x) o s =
      ((X ++ List.replicate g x) ++ s) ++ List.replicate j x := by
  unfold setArr
  rw [List.take_append_eq_append_take, List.drop_append_eq_append_drop,
      List.take_replicate, List.drop_replicate]
  rw [List.take_of_length_le (by omega), List.drop_eq_nil_of_le (by omega)]
  rw [show min (o - X.length) k = g from by omega]
  rw [show k - (o + s.length - X.length) = j from by omega]
  simp [List.append_assoc]

/-- The PVD construction, written as the flat sector `pvdList`. -/
theorem pvd_eq (t : Nat) : pvdOf t = pvdList t := by
  simp only [pvdOf, fillTo]
  rw [show (List.replicate 2048 0 : List Nat) = [] ++ List.replicate 2048 0 from rfl]
  rw [setArr_flat _ _ _ _ _ 0 2047 (by simp) (by simp)]
  rw [setArr_flat _ _ _ _ _ 0 2042
    (by simp only [List.length_append, List.length_replicate, List.length_cons,
      List.length_nil, cd001_length, cidata_length, u32b_length, u16b_length,
      dotRec_length])
    (by simp only [List.length_append, List.length_replicate, List.length_cons,
      List.length_nil, cd001_length, cidata_length, u32b_length, u16b_length,
      dotRec_length])]
  rw [setArr_flat _ _ _ _ _ 0 2041
    (by simp only [List.length_append, List.length_replicate, List.length_cons,
      List.length_nil, cd001_length, cidata_length, u32b_length, u16b_length,
      dotRec_length])
    (by simp only [List.length_append, List.length_replicate, List.length_cons,
      List.length_nil, cd001_length, cidata_length, u32b_length, u16b_length,
      dotRec_length])]
  rw [setArr_flat _ _ _ _ _ 1 2008
    (by simp only [List.length_append, List.length_replicate, List.length_cons,
      List.length_nil, cd001_length, cidata_length, u32b_length, u16b_length,
      dotRec_length])
    (by simp only [List.length_append, List.length_replicate, List.length_cons,
      List.length_nil, cd001_length, cidata_length, u32b_length, u16b_length,
      dotRec_length])]
  rw [setArr_flat _ _ _ _ _ 0 2002
    (by simp only [List.length_append, List.length_replicate, List.length_cons,
      List.length_nil, cd001_length, cidata_length, u32b_length, u16b_length,
      dotRec_length])
    (by simp only [List.length_append, List.length_replicate, List.length_cons,
      List.length_nil, cd001_length, cidata_length, u32b_length, u16b_length,
      dotRec_length])]
  rw [setArr_flat _ _ _ _ _ 0 1976
    (by simp only [List.length_append, List.length_replicate, List.length_cons,
      List.length_nil, cd001_length, cidata_length, u32b_length, u16b_length,
      dotRec_length])
    (by simp only [List.length_append, List.length_replicate, List.length_cons,
      List.length_nil, cd001_length, cidata_length, u32b_length, u16b_length,
      dotRec_length])]
  rw [setArr_flat _ _ _ _ _ 8 1960
    (by simp only [List.length_append, List.length_replicate, List.length_cons,
      List.length_nil, cd001_length, cidata_length, u32b_length, u16b_length,
      dotRec_length])
    (by simp only [List.length_append, List.length_replicate, List.length_cons,
      List.length_nil, cd001_length, cidata_length, u32b_length, u16b_length,
      dotRec_length])]
  rw [setArr_flat _ _ _ _ _ 32 1924
    (by simp only [List.length_append, List.length_replicate, List.length_cons,
      List.length_nil, cd001_length, cidata_length, u32b_length, u16b_length,
      dotRec_length])
    (by simp only [List.length_append, List.length_replicate, List.length_cons,
      List.length_nil, cd001_length, cidata_length, u32b_length, u16b_length,
      dotRec_length])]
  rw [setArr_flat _ _ _ _ _ 0 1920
    (by simp only [List.length_append, List.length_replicate, List.length_cons,
      List.length_nil, cd001_length, cidata_length, u32b_length, u16b_length,
      dotRec_length])
    (by simp only [List.length_append, List.length_replicate, List.length_cons,
      List.length_nil, cd001_length, cidata_length, u32b_length, u16b_length,
      dotRec_length])]
  rw [setArr_flat _ _ _ _ _ 0 1916
    (by simp only [List.length_append, List.length_replicate, List.length_cons,
      List.length_nil, cd001_length, cidata_length, u32b_length, u16b_length,
      dotRec_length])
    (by simp only [List.length_append, List.length_replicate, List.length_cons,
      List.length_nil, cd001_length, cidata_length, u32b_length, u16b_length,
      dotRec_length])]
  rw [setArr_flat _ _ _ _ _ 0 1908
    (by simp only [List.length_append, List.length_replicate, List.length_cons,
      List.length_nil, cd001_length, cidata_length, u32b_length, u16b_length,
      dotRec_length])
    (by simp only [List.length_append, List.length_replicate, List.length_cons,
      List.length_nil, cd001_length, cidata_length, u32b_length, u16b_length,
      dotRec_length])]
  rw [setArr_flat _ _ _ _ _ 16 1858
    (by simp only [List.length_append, List.length_replicate, List.length_cons,
      List.length_nil, cd001_length, cidata_length, u32b_length, u16b_length,
      dotRec_length])
    (by simp only [List.length_append, List.length_replicate, List.length_cons,
      List.length_nil, cd001_length, cidata_length, u32b_length, u16b_length,
      dotRec_length])]
  rw [setArr_flat _ _ _ _ _ 0 1235
    (by simp only [List.length_append, List.length_replicate, List.length_cons,
      List.length_nil, cd001_length, cidata_length, u32b_length, u16b_length,
      dotRec_length])
    (by simp only [List.length_append, List.length_replicate, List.length_cons,
      List.length_nil, cd001_length, cidata_length, u32b_length, u16b_length,
      dotRec_length])]
  rw [setArr_flat _ _ _ _ _ 0 1219
    (by simp only [List.length_append, List.length_replicate, List.length_cons,
      List.length_nil, cd001_length, cidata_length, u32b_length, u16b_length,
      dotRec_length])
    (by simp only [List.length_append, List.length_replicate, List.length_cons,
      List.length_nil, cd001_length, cidata_length, u32b_length, u16b_length,
      dotRec_length])]
  rw [setArr_flat _ _ _ _ _ 0 1218
    (by simp only [List.length_append, List.length_replicate, List.length_cons,
      List.length_nil, cd001_length, cidata_length, u32b_length, u16b_length,
      dotRec_length])
    (by simp only [List.length_append, List.length_replicate, List.length_cons,
      List.length_nil, cd001_length, cidata_length, u32b_length, u16b_length,
      dotRec_length])]
  rw [setArr_flat _ _ _ _ _ 0 1202
    (by simp only [List.length_append, List.length_replicate, List.length_cons,
      List.length_nil, cd001_length, cidata_length, u32b_length, u16b_length,
      dotRec_length])
    (by simp only [List.length_append, List.length_replicate, List.length_cons,
      List.length_nil, cd001_length, cidata_length, u32b_length, u16b_length,
      dotRec_length])]
  rw [setArr_flat _ _ _ _ _ 0 1201
    (by simp only [List.length_append, List.length_replicate, List.length_cons,
      List.length_nil, cd001_length, cidata_length, u32b_length, u16b_length,
      dotRec_length])
    (by simp only [List.length_append, List.length_replicate, List.length_cons,
      List.length_nil, cd001_length, cidata_length, u32b_length, u16b_length,
      dotRec_length])]
  rw [setArr_flat _ _ _ _ _ 0 1185
    (by simp only [List.length_append, List.length_replicate, List.length_cons,
      List.length_nil, cd001_length, cidata_length, u32b_length, u16b_length,
      dotRec_length])
    (by simp only [List.length_append, List.length_replicate, List.length_cons,
      List.length_nil, cd001_length, cidata_length, u32b_length, u16b_length,
      dotRec_length])]
  rw [setArr_flat _ _ _ _ _ 0 1184
    (by simp only [List.length_append, List.length_replicate, List.length_cons,
      List.length_nil, cd001_length, cidata_length, u32b_length, u16b_length,
      dotRec_length])
    (by simp only [List.length_append, List.length_replicate, List.length_cons,
      List.length_nil, cd001_length, cidata_length, u32b_length, u16b_length,
      dotRec_length])]
  rw [setArr_flat _ _ _ _ _ 0 1168
    (by simp only [List.length_append, List.length_replicate, List.length_cons,
      List.length_nil, cd001_length, cidata_length, u32b_length, u16b_length,
      dotRec_length])
    (by simp only [List.length_append, List.length_replicate, List.length_cons,
      List.length_nil, cd001_length, cidata_length, u32b_length, u16b_length,
      dotRec_length])]
  rw [setArr_flat _ _ _ _ _ 0 1167
    (by simp only [List.length_append, List.length_replicate, List.length_cons,
      List.length_nil, cd001_length, cidata_length, u32b_length, u16b_length,
      dotRec_length])
    (by simp only [List.length_append, List.length_replicate, List.length_cons,
      List.length_nil, cd001_length, cidata_length, u32b_length, u16b_length,
      dotRec_length])]
  rw [setArr_flat _ _ _ _ _ 0 1166
    (by simp only [List.length_append, List.length_replicate, List.length_cons,
      List.length_nil, cd001_length, cidata_length, u32b_length, u16b_length,
      dotRec_length])
    (by simp only [List.length_append, List.length_replicate, List.length_cons,
      List.length_nil, cd001_length, cidata_length, u32b_length, u16b_length,
      dotRec_length])]
  simp [pvdList, List.append_assoc]

/-- The root directory construction, written as the flat sector `rootList`. -/
theorem root_eq (ml ul : Nat) : rootDirOf ml ul = rootList ml ul := by
  simp only [rootDirOf]
  rw [show (extentsList ml ul).getD 0 0 = 19 from rfl,
      show (extentsList ml ul).getD 1 0 = 19 + sectorsFor ml from rfl]
  rw [show (List.replicate 2048 0 : List Nat) = [] ++ List.replicate 2048 0 from rfl]
  rw [setArr_flat _ _ _ _ _ 0 2014 (by simp) (by simp)]
  rw [setArr_flat _ _ _ _ _ 0 1980
    (by simp only [List.length_append, List.length_replicate, List.length_cons,
      List.length_nil, dotRec_length, dotdotRec_length])
    (by simp only [List.length_append, List.length_replicate, List.length_cons,
      List.length_nil, dotRec_length, dotdotRec_length])]
  rw [setArr_flat _ _ _ _ _ 0 1938
    (by simp only [List.length_append, List.length_replicate, List.length_cons,
      List.length_nil, dotRec_length, dotdotRec_length, metaRec_length])
    (by simp only [List.length_append, List.length_replicate, List.length_cons,
      List.length_nil, dotRec_length, dotdotRec_length, metaRec_length])]
  rw [setArr_flat _ _ _ _ _ 0 1896
    (by simp only [List.length_append, List.length_replicate, List.length_cons,
      List.length_nil, dotRec_length, dotdotRec_length, metaRec_length,
      userRec_length])
    (by simp only [List.length_append, List.length_replicate, List.length_cons,
      List.length_nil, dotRec_length, dotdotRec_length, metaRec_length,
      userRec_length])]
  simp [rootList, List.append_assoc]

/-- The VDST construction, written as the flat sector `vdstList`. -/
theorem vdst_eq : vdst = vdstList := by
  simp only [vdst]
  rw [show (List.replicate 2048 0 : List Nat) = [] ++ List.replicate 2048 0 from rfl]
  rw [setArr_flat _ _ _ _ _ 0 2047 (by simp) (by simp)]
  rw [setArr_flat _ _ _ _ _ 0 2042
    (by simp only [List.length_append, List.length_replicate, List.length_cons,
      List.length_nil, cd001_length])
    (by simp only [List.length_append, List.length_replicate, List.length_cons,
      List.length_nil, cd001_length])]
  rw [setArr_flat _ _ _ _ _ 0 2041
    (by simp only [List.length_append, List.length_replicate, List.length_cons,
      List.length_nil, cd001_length])
    (by simp only [List.length_append, List.length_replicate, List.length_cons,
      List.length_nil, cd001_length])]
  simp [vdstList, List.append_assoc]

@[simp] theorem pvdOf_length (t : Nat) : (pvdOf t).length = 2048 := by
  rw [pvd_eq]
  simp only [pvdList, List.length_append, List.length_replicate, List.length_cons,
    List.length_nil, cd001_length, cidata_length, u32b_length, u16b_length, dotRec_length]

@[simp] theorem rootDirOf_length (ml ul : Nat) : (rootDirOf ml ul).length = 2048 := by
  rw [root_eq]
  simp only [rootList, List.length_append, List.length_replicate, List.length_cons,
    List.length_nil, dotRec_length, dotdotRec_length, metaRec_length, userRec_length]

@[simp] theorem vdst_length : vdst.length = 2048 := by
  rw [vdst_eq]
  simp only [vdstList, List.length_append, List.length_replicate, List.length_cons,
    List.length_nil, cd001_length]



-- Sector arithmetic.

theorem sectorsFor_pos (n : Nat) : 1 ≤ sectorsFor n := by
  simp only [sectorsFor]
  split <;> omega

theorem le_sectorsFor_mul (n : Nat) : n ≤ sectorsFor n * 2048 := by
  simp only [sectorsFor]
  split <;> omega

theorem sectorsFor_max (n : Nat) : sectorsFor n = max 1 ((n + 2047) / 2048) := by
  simp only [sectorsFor]
  split <;> omega

theorem extentsList_eq (ml ul : Nat) : extentsList ml ul = [19, 19 + sectorsFor ml] := rfl

theorem totalSectorsOf_eq (ml ul : Nat) :
    totalSectorsOf ml ul = 19 + sectorsFor ml + sectorsFor ul := rfl

-- Generic facts about slices of spliced buffers.

theorem setArr_length (b s : List Nat) (o : Nat) (h : o + s.length ≤ b.length) :
    (setArr b o s).length = b.length := by
  unfold setArr
  simp only [List.length_append, List.length_take, List.length_drop]
  omega

theorem slice_setArr_before (b s : List Nat) (o q l : Nat)
    (hq : q + l ≤ o) (ho : o ≤ b.length) :
    slice (setArr b o s) q l = slice b q l := by
  unfold slice setArr
  rw [List.drop_append_eq_append_drop, List.take_append_eq_append_take]
  have h1 : (List.take o b).length = o := by
    rw [List.length_take]; omega
  have h2 : (List.drop q (List.take o b)).length = o - q := by
    rw [List.length_drop, h1]
  rw [h1, h2, show l - (o - q) = 0 from by omega, List.take_zero, List.append_nil]
  rw [List.drop_take, List.take_take, show min l (o - q) = l from by omega]

theorem slice_setArr_after (b s : List Nat) (o q l : Nat)
    (hq : o + s.length ≤ q) (hfit : o + s.length ≤ b.length) :
    slice (setArr b o s) q l = slice b q l := by
  unfold slice setArr
  rw [List.drop_append_eq_append_drop, List.drop_append_eq_append_drop]
  have h1 : (List.take o b).length = o := by
    rw [List.length_take]; omega
  rw [h1, List.drop_eq_nil_of_le (by rw [h1]; omega), List.nil_append]
  rw [List.drop_eq_nil_of_le (by omega : s.length ≤ q - o), List.nil_append]
  rw [List.drop_drop, show o + s.length + (q - o - s.length) = q from by omega]

theorem slice_setArr_sub (b s : List Nat) (o d l : Nat)
    (hd : d + l ≤ s.length) (hfit : o + s.length ≤ b.length) :
    slice (setArr b o s) (o + d) l = slice s d l := by
  unfold slice setArr
  rw [List.drop_append_eq_append_drop, List.drop_append_eq_append_drop]
  have h1 : (List.take o b).length = o := by
    rw [List.length_take]; omega
  rw [h1, List.drop_eq_nil_of_le (by rw [h1]; omega), List.nil_append]
  rw [show o + d - o = d from by omega]
  rw [List.take_append_eq_append_take]
  rw [List.length_drop, show l - (s.length - d) = 0 from by omega,
      List.take_zero, List.append_nil]

theorem slice_setArr_self (b s : List Nat) (o n : Nat)
    (hn : s.length = n) (hfit : o + s.length ≤ b.length) :
    slice (setArr b o s) o n = s := by
  have h := slice_setArr_sub b s o 0 n (by omega) hfit
  rw [Nat.add_zero] at h
  rw [h]
  unfold slice
  rw [List.drop_zero, ← hn, List.take_length]

theorem slice_replicate (n x q l : Nat) (h : q + l ≤ n) :
    slice (List.replicate n x) q l = List.replicate l x := by
  unfold slice
  rw [List.drop_replicate, List.take_replicate, show min l (n - q) = l from by omega]

theorem slice_slice (b : List Nat) (o w d l : Nat) (h : d + l ≤ w) :
    slice (slice b o w) d l = slice b (o + d) l := by
  unfold slice
  rw [List.drop_take, List.drop_drop, List.take_take,
      show min l (w - d) = l from by omega]

theorem readLE_slice (b : List Nat) (o w d n : Nat) (h : d + n ≤ w) :
    readLE (slice b o w) d n = readLE b (o + d) n := by
  unfold readLE
  rw [slice_slice b o w d n h]

theorem readBE_slice (b : List Nat) (o w d n : Nat) (h : d + n ≤ w) :
    readBE (slice b o w) d n = readBE b (o + d) n := by
  unfold readBE
  rw [slice_slice b o w d n h]

-- A chain of writes, and how slices commute with it.

/-- Apply a list of (offset, data) writes to a buffer, in order. -/
def writeAll (b : List Nat) : List (Nat × List Nat) → List Nat
  | [] => b
  | w :: ws => writeAll (setArr b w.1 w.2) ws

theorem writeAll_length (ws : List (Nat × List Nat)) (b : List Nat)
    (h : ∀ w ∈ ws, w.1 + w.2.length ≤ b.length) :
    (writeAll b ws).length = b.length := by
  induction ws generalizing b with
  | nil => rfl
  | cons w ws ih =>
    have hw := h w (List.mem_cons_self w ws)
    have hl := setArr_length b w.2 w.1 hw
    rw [writeAll, ih (setArr b w.1 w.2) (by rw [hl]; exact fun v hv => h v (List.mem_cons_of_mem w hv)), hl]

theorem slice_writeAll_disj (ws : List (Nat × List Nat)) (b : List Nat) (q l : Nat)
    (h : ∀ w ∈ ws, w.1 + w.2.length ≤ b.length ∧ (w.1 + w.2.length ≤ q ∨ q + l ≤ w.1)) :
    slice (writeAll b ws) q l = slice b q l := by
  induction ws generalizing b with
  | nil => rfl
  | cons w ws ih =>
    have hw := h w (List.mem_cons_self w ws)
    have hl := setArr_length b w.2 w.1 hw.1
    rw [writeAll, ih (setArr b w.1 w.2) (by rw [hl]; exact fun v hv => h v (List.mem_cons_of_mem w hv))]
    rcases hw.2 with hc | hc
    · exact slice_setArr_after b w.2 w.1 q l hc hw.1
    · exact slice_setArr_before b w.2 w.1 q l hc (by omega)

/-- Reading back exactly the block written by the head write of a chain,
when all the later writes are disjoint from it. -/
theorem slice_writeAll_at (b : List Nat) (o : Nat) (s : List Nat)
    (ws : List (Nat × List Nat)) (n : Nat)
    (hn : s.length = n) (hfit : o + s.length ≤ b.length)
    (hws : ∀ w ∈ ws, w.1 + w.2.length ≤ b.length ∧ (w.1 + w.2.length ≤ o ∨ o + n ≤ w.1)) :
    slice (writeAll (setArr b o s) ws) o n = s := by
  have hl := setArr_length b s o hfit
  rw [slice_writeAll_disj ws (setArr b o s) o n (by rw [hl]; exact hws)]
  exact slice_setArr_self b s o n hn hfit


theorem writeAll_nil (b : List Nat) : writeAll b [] = b := rfl

theorem writeAll_cons (b : List Nat) (o : Nat) (s : List Nat) (ws : List (Nat × List Nat)) :
    writeAll b ((o, s) :: ws) = writeAll (setArr b o s) ws := rfl

/-- The builder is the write chain over the zeroed buffer: PVD at LBA 16,
VDST at 17, root directory at 18, then the two payloads at their extents. -/
theorem make_eq (u m : List Nat) :
    makeCloudInitIso u m =
      writeAll (List.replicate (totalSectorsOf m.length u.length * 2048) 0)
        [(16 * 2048, pvdOf (totalSectorsOf m.length u.length)),
         (17 * 2048, vdst),
         (18 * 2048, rootDirOf m.length u.length),
         (19 * 2048, m),
         ((19 + sectorsFor m.length) * 2048, u)] := rfl

/-- Sector map of the built image: its length, the three structural sectors,
the two payload extents, the zero system area and the zero tails of the two
file extents. -/
theorem make_sectors (u m : List Nat) :
    (makeCloudInitIso u m).length = totalSectorsOf m.length u.length * 2048 ∧
    slice (makeCloudInitIso u m) (16 * 2048) 2048 = pvdOf (totalSectorsOf m.length u.length) ∧
    slice (makeCloudInitIso u m) (17 * 2048) 2048 = vdst ∧
    slice (makeCloudInitIso u m) (18 * 2048) 2048 = rootDirOf m.length u.length ∧
    slice (makeCloudInitIso u m) (19 * 2048) m.length = m ∧
    slice (makeCloudInitIso u m) ((19 + sectorsFor m.length) * 2048) u.length = u ∧
    slice (makeCloudInitIso u m) 0 (16 * 2048) = List.replicate (16 * 2048) 0 ∧
    slice (makeCloudInitIso u m) (19 * 2048 + m.length) (sectorsFor m.length * 2048 - m.length) =
      List.replicate (sectorsFor m.length * 2048 - m.length) 0 ∧
    slice (makeCloudInitIso u m) ((19 + sectorsFor m.length) * 2048 + u.length)
        (sectorsFor u.length * 2048 - u.length) =
      List.replicate (sectorsFor u.length * 2048 - u.length) 0 := by
  have hsm := sectorsFor_pos m.length
  have hsu := sectorsFor_pos u.length
  have hml := le_sectorsFor_mul m.length
  have hul := le_sectorsFor_mul u.length
  have htot := totalSectorsOf_eq m.length u.length
  have hb0 : (List.replicate (totalSectorsOf m.length u.length * 2048) 0).length =
      totalSectorsOf m.length u.length * 2048 := List.length_replicate _ _
  have hb1 : (setArr (List.replicate (totalSectorsOf m.length u.length * 2048) 0)
      (16 * 2048) (pvdOf (totalSectorsOf m.length u.length))).length =
      totalSectorsOf m.length u.length * 2048 := by
    rw [setArr_length, hb0]
    rw [pvdOf_length, hb0]
    omega
  have hb2 : (setArr (setArr (List.replicate (totalSectorsOf m.length u.length * 2048) 0)
      (16 * 2048) (pvdOf (totalSectorsOf m.length u.length))) (17 * 2048) vdst).length =
      totalSectorsOf m.length u.length * 2048 := by
    rw [setArr_length, hb1]
    rw [vdst_length, hb1]
    omega
  have hb3 : (setArr (setArr (setArr (List.replicate (totalSectorsOf m.length u.length * 2048) 0)
      (16 * 2048) (pvdOf (totalSectorsOf m.length u.length))) (17 * 2048) vdst)
      (18 * 2048) (rootDirOf m.length u.length)).length =
      totalSectorsOf m.length u.length * 2048 := by
    rw [setArr_length, hb2]
    rw [rootDirOf_length, hb2]
    omega
  have hb4 : (setArr (setArr (setArr (setArr
      (List.replicate (totalSectorsOf m.length u.length * 2048) 0)
      (16 * 2048) (pvdOf (totalSectorsOf m.length u.length))) (17 * 2048) vdst)
      (18 * 2048) (rootDirOf m.length u.length)) (19 * 2048) m).length =
      totalSectorsOf m.length u.length * 2048 := by
    rw [setArr_length, hb3]
    rw [hb3]
    omega
  refine ⟨?_, ?_, ?_, ?_, ?_, ?_, ?_, ?_, ?_⟩
  · rw [make_eq, writeAll_length]
    · exact hb0
    · intro w hw
      simp only [List.mem_cons, List.not_mem_nil, or_false] at hw
      rcases hw with rfl | rfl | rfl | rfl | rfl <;>
        simp only [pvdOf_length, vdst_length, rootDirOf_length, List.length_replicate] <;>
        omega
  · rw [make_eq, writeAll_cons]
    apply slice_writeAll_at
    · exact pvdOf_length _
    · rw [pvdOf_length, hb0]
      omega
    · intro w hw
      simp only [List.mem_cons, List.not_mem_nil, or_false] at hw
      rcases hw with rfl | rfl | rfl | rfl <;>
        simp only [vdst_length, rootDirOf_length, List.length_replicate] <;>
        omega
  · rw [make_eq, writeAll_cons, writeAll_cons]
    apply slice_writeAll_at
    · exact vdst_length
    · rw [vdst_length, hb1]
      omega
    · intro w hw
      simp only [List.mem_cons, List.not_mem_nil, or_false] at hw
      rcases hw with rfl | rfl | rfl <;>
        simp only [rootDirOf_length, hb1] <;>
        omega
  · rw [make_eq, writeAll_cons, writeAll_cons, writeAll_cons]
    apply slice_writeAll_at
    · exact rootDirOf_length _ _
    · rw [rootDirOf_length, hb2]
      omega
    · intro w hw
      simp only [List.mem_cons, List.not_mem_nil, or_false] at hw
      rcases hw with rfl | rfl <;>
        simp only [hb2] <;>
        omega
  · rw [make_eq, writeAll_cons, writeAll_cons, writeAll_cons, writeAll_cons]
    apply slice_writeAll_at
    · rfl
    · rw [hb3]
      omega
    · intro w hw
      simp only [List.mem_cons, List.not_mem_nil, or_false] at hw
      rcases hw with rfl <;>
        simp only [hb3] <;>
        omega
  · rw [make_eq, writeAll_cons, writeAll_cons, writeAll_cons, writeAll_cons, writeAll_cons,
        writeAll_nil]
    apply slice_setArr_self
    · rfl
    · rw [hb4]
      omega
  · rw [make_eq, slice_writeAll_disj]
    · rw [slice_replicate]
      omega
    · intro w hw
      simp only [List.mem_cons, List.not_mem_nil, or_false] at hw
      rcases hw with rfl | rfl | rfl | rfl | rfl <;>
        simp only [pvdOf_length, vdst_length, rootDirOf_length, List.length_replicate] <;>
        omega
  · rw [make_eq, slice_writeAll_disj]
    · rw [slice_replicate]
      omega
    · intro w hw
      simp only [List.mem_cons, List.not_mem_nil, or_false] at hw
      rcases hw with rfl | rfl | rfl | rfl | rfl <;>
        simp only [pvdOf_length, vdst_length, rootDirOf_length, List.length_replicate] <;>
        omega
  · rw [make_eq, slice_writeAll_disj]
    · rw [slice_replicate]
      omega
    · intro w hw
      simp only [List.mem_cons, List.not_mem_nil, or_false] at hw
      rcases hw with rfl | rfl | rfl | rfl | rfl <;>
        simp only [pvdOf_length, vdst_length, rootDirOf_length, List.length_replicate] <;>
        omega


-- Byte-level facts about the flattened PVD and VDST sectors.

theorem slice_sub (b : List Nat) (o w l : Nat) (h : l ≤ w) :
    slice (slice b o w) 0 l = slice b o l := by
  have hs := slice_slice b o w 0 l (by omega)
  rwa [Nat.add_zero] at hs

theorem pvd_head (t : Nat) : slice (pvdOf t) 0 7 = 1 :: (cd001 ++ [1]) := by
  rw [pvd_eq]
  rfl

theorem pvd_byte0 (t : Nat) : slice (pvdOf t) 0 1 = [1] := by
  rw [pvd_eq]
  rfl

theorem pvd_volid (t : Nat) : slice (pvdOf t) 40 32 = cidata ++ List.replicate 26 32 := by
  rw [pvd_eq]
  rfl

theorem pvd_total (t : Nat) : readLE (pvdOf t) 80 4 = t % 4294967296 := by
  rw [pvd_eq]
  have h : readLE (pvdList t) 80 4 =
      (((0 * 256 + t % 4294967296 / 16777216 % 256) * 256 + t % 4294967296 / 65536 % 256) * 256 +
        t % 4294967296 / 256 % 256) * 256 + t % 4294967296 % 256 := rfl
  rw [h]
  omega

theorem pvd_bsLE (t : Nat) : readLE (pvdOf t) 128 2 = 2048 := by
  rw [pvd_eq]
  rfl

theorem pvd_bsBE (t : Nat) : readBE (pvdOf t) 130 2 = 2048 := by
  rw [pvd_eq]
  rfl

theorem pvd_rootLE (t : Nat) : readLE (pvdOf t) 158 4 = 18 := by
  rw [pvd_eq]
  rfl

theorem pvd_rootBE (t : Nat) : readBE (pvdOf t) 162 4 = 18 := by
  rw [pvd_eq]
  rfl

theorem pvd_ptsize (t : Nat) : slice (pvdOf t) 132 8 = List.replicate 8 0 := by
  rw [pvd_eq]
  rfl

theorem pvd_ptloc (t : Nat) : slice (pvdOf t) 140 12 = List.replicate 12 0 := by
  rw [pvd_eq]
  rfl

theorem pvd_ptLE (t : Nat) : readLE (pvdOf t) 132 4 = 0 := by
  rw [pvd_eq]
  rfl

theorem pvd_ptBE (t : Nat) : readBE (pvdOf t) 136 4 = 0 := by
  rw [pvd_eq]
  rfl

theorem vdst_head : slice vdst 0 7 = 255 :: (cd001 ++ [1]) := by
  rw [vdst_eq]
  rfl

-- Both-endian helper symmetry.

theorem u32b_le (v : Nat) : readLE (u32b v) 0 4 = v % 4294967296 := by
  have h : readLE (u32b v) 0 4 =
      (((0 * 256 + v % 4294967296 / 16777216 % 256) * 256 + v % 4294967296 / 65536 % 256) * 256 +
        v % 4294967296 / 256 % 256) * 256 + v % 4294967296 % 256 := rfl
  rw [h]
  omega

theorem u32b_be (v : Nat) : readBE (u32b v) 4 4 = v % 4294967296 := by
  have h : readBE (u32b v) 4 4 =
      (((0 * 256 + v % 4294967296 / 16777216 % 256) * 256 + v % 4294967296 / 65536 % 256) * 256 +
        v % 4294967296 / 256 % 256) * 256 + v % 4294967296 % 256 := rfl
  rw [h]
  omega

theorem u16b_le (v : Nat) : readLE (u16b v) 0 2 = v % 65536 := by
  have h : readLE (u16b v) 0 2 =
      (0 * 256 + v % 4294967296 / 256 % 256) * 256 + v % 4294967296 % 256 := rfl
  rw [h]
  omega

theorem u16b_be (v : Nat) : readBE (u16b v) 2 2 = v % 65536 := by
  have h : readBE (u16b v) 2 2 =
      (0 * 256 + v % 4294967296 / 256 % 256) * 256 + v % 4294967296 % 256 := rfl
  rw [h]
  omega

-- Parsing the root directory sector.

theorem dirRecord_length (nb : List Nat) (d : Bool) (e l : Nat) :
    (dirRecord nb d e l).length = 33 + nb.length + (if nb.length % 2 = 0 then 1 else 0) := by
  simp only [dirRecord, List.length_append, List.length_cons, List.length_nil,
    u32b_length, u16b_length]
  split <;> simp <;> omega

theorem parse_key (ml ul : Nat) : parseRecs 2048 (rootList ml ul) =
    [mkEnt dotRec, mkEnt dotdotRec, mkEnt (dirRecord metaName false 19 ml),
     mkEnt (dirRecord userName false (19 + sectorsFor ml) ul)] := rfl

theorem mkEnt_dotRec : mkEnt dotRec = dotEnt := rfl

theorem mkEnt_dotdotRec : mkEnt dotdotRec = dotdotEnt := rfl

theorem mkEnt_metaRec (e l : Nat) :
    mkEnt (dirRecord metaName false e l) = ⟨42, e % 4294967296, l % 4294967296, 0, metaName⟩ := by
  have hx : readLE (dirRecord metaName false e l) 2 4 =
      (((0 * 256 + e % 4294967296 / 16777216 % 256) * 256 + e % 4294967296 / 65536 % 256) * 256 +
        e % 4294967296 / 256 % 256) * 256 + e % 4294967296 % 256 := rfl
  have hy : readLE (dirRecord metaName false e l) 10 4 =
      (((0 * 256 + l % 4294967296 / 16777216 % 256) * 256 + l % 4294967296 / 65536 % 256) * 256 +
        l % 4294967296 / 256 % 256) * 256 + l % 4294967296 % 256 := rfl
  simp only [mkEnt, DirEnt.mk.injEq]
  exact ⟨rfl, by rw [hx]; omega, by rw [hy]; omega, rfl, rfl⟩

theorem mkEnt_userRec (e l : Nat) :
    mkEnt (dirRecord userName false e l) = ⟨42, e % 4294967296, l % 4294967296, 0, userName⟩ := by
  have hx : readLE (dirRecord userName false e l) 2 4 =
      (((0 * 256 + e % 4294967296 / 16777216 % 256) * 256 + e % 4294967296 / 65536 % 256) * 256 +
        e % 4294967296 / 256 % 256) * 256 + e % 4294967296 % 256 := rfl
  have hy : readLE (dirRecord userName false e l) 10 4 =
      (((0 * 256 + l % 4294967296 / 16777216 % 256) * 256 + l % 4294967296 / 65536 % 256) * 256 +
        l % 4294967296 / 256 % 256) * 256 + l % 4294967296 % 256 := rfl
  simp only [mkEnt, DirEnt.mk.injEq]
  exact ⟨rfl, by rw [hx]; omega, by rw [hy]; omega, rfl, rfl⟩

theorem sectorsFor_bound (n : Nat) (h : n < 4294967296) : 19 + sectorsFor n < 4294967296 := by
  simp only [sectorsFor]
  split <;> omega

theorem parse_rootList (ml ul : Nat) (hm : ml < 4294967296) (hu : ul < 4294967296) :
    parseRecs 2048 (rootList ml ul) = [dotEnt, dotdotEnt, metaEnt ml, userEnt ml ul] := by
  rw [parse_key, mkEnt_dotRec, mkEnt_dotdotRec, mkEnt_metaRec, mkEnt_userRec]
  have h1 : (19 : Nat) % 4294967296 = 19 := by norm_num
  have h2 : ml % 4294967296 = ml := Nat.mod_eq_of_lt hm
  have h3 : ul % 4294967296 = ul := Nat.mod_eq_of_lt hu
  have h4 : (19 + sectorsFor ml) % 4294967296 = 19 + sectorsFor ml :=
    Nat.mod_eq_of_lt (sectorsFor_bound ml hm)
  rw [h1, h2, h3, h4]
  rfl

theorem parseRootDir_make (u m : List Nat)
    (hm : m.length < 4294967296) (hu : u.length < 4294967296) :
    parseRootDir (makeCloudInitIso u m) =
      [dotEnt, dotdotEnt, metaEnt m.length, userEnt m.length u.length] := by
  unfold parseRootDir
  rw [(make_sectors u m).2.2.2.1, root_eq]
  exact parse_rootList m.length u.length hm hu

theorem extract_user (u m : List Nat)
    (hm : m.length < 4294967296) (hu : u.length < 4294967296) :
    extractNamed (makeCloudInitIso u m) userName = some u := by
  have hstep : extractNamed (makeCloudInitIso u m) userName =
      some (slice (makeCloudInitIso u m) ((19 + sectorsFor m.length) * 2048) u.length) := by
    unfold extractNamed
    rw [parseRootDir_make u m hm hu]
    rfl
  rw [hstep, (make_sectors u m).2.2.2.2.2.1]

theorem extract_meta (u m : List Nat)
    (hm : m.length < 4294967296) (hu : u.length < 4294967296) :
    extractNamed (makeCloudInitIso u m) metaName = some m := by
  have hstep : extractNamed (makeCloudInitIso u m) metaName =
      some (slice (makeCloudInitIso u m) (19 * 2048) m.length) := by
    unfold extractNamed
    rw [parseRootDir_make u m hm hu]
    rfl
  rw [hstep, (make_sectors u m).2.2.2.2.1]


-- Claim theorems.

/-- C1: Round-trip — for every pair of inputs (as UTF-8 byte encodings of the
user-data and meta-data strings, of any length below 2^32, the range JavaScript
buffers can represent), building the image and then extracting each file's
bytes — reading exactly dataLength bytes (the data-length field recorded in
that file's root-directory record, not the sector-padded extent) starting at
byte offset extentLba * 2048 — yields exactly the USER-DATA payload bytes and
exactly the META-DATA payload bytes. -/
theorem c1_round_trip (u m : List Nat)
    (hu : u.length < 4294967296) (hm : m.length < 4294967296) :
    extractNamed (makeCloudInitIso u m) userName = some u ∧
    extractNamed (makeCloudInitIso u m) metaName = some m :=
  ⟨extract_user u m hm hu, extract_meta u m hm hu⟩

/-- Witness for C1 at the concrete input pair of two empty payloads. -/
theorem c1_round_trip_witness :
    ([] : List Nat).length < 4294967296 ∧ ([] : List Nat).length < 4294967296 ∧
    (extractNamed (makeCloudInitIso [] []) userName = some [] ∧
     extractNamed (makeCloudInitIso [] []) metaName = some []) :=
  ⟨by decide, by decide, c1_round_trip [] [] (by decide) (by decide)⟩

/-- C2 counterexample: on the example inputs, the META-DATA entry's recorded
data length is 18 (the byte length of "instance-id: myvm\n"), not 19 as the
claim states. -/
theorem c2_example_counterexample :
    ¬ (((parseRootDir (makeCloudInitIso exampleUserData exampleMetaData)).getD 2 dotEnt).dataLen
      = 19) := by
  rw [parseRootDir_make exampleUserData exampleMetaData (by decide) (by decide)]
  decide

/-- C2 (amended): makeCloudInitIso("#cloud-config\nhostname: myvm\n",
"instance-id: myvm\n") produces an image whose root directory contains a
META-DATA entry with recorded data length 18 bytes and a USER-DATA entry with
recorded data length 29 bytes, in that order, with extent LBAs 19 and 20
(both at least 19), and whose total length is a multiple of 2048. -/
theorem c2_example_amended :
    parseRootDir (makeCloudInitIso exampleUserData exampleMetaData) =
      [dotEnt, dotdotEnt, ⟨42, 19, 18, 0, metaName⟩, ⟨42, 20, 29, 0, userName⟩] ∧
    (makeCloudInitIso exampleUserData exampleMetaData).length % 2048 = 0 := by
  constructor
  · rw [parseRootDir_make exampleUserData exampleMetaData (by decide) (by decide)]
    decide
  · rw [(make_sectors exampleUserData exampleMetaData).1]
    decide

/-- C3: Layout Planner extent assignment — extents are assigned in the order
META-DATA then USER-DATA (the name-sorted order of the hardcoded files array)
starting at LBA 19; the running counter advances by
max(1, ceil(byteLength / 2048)) sectors, so a zero-length payload occupies
exactly one sector; every file extent LBA is at least 19; and USER-DATA's
extent begins immediately after META-DATA's last occupied sector. -/
theorem c3_extent_assignment (u m : List Nat) :
    extentsList m.length u.length = [19, 19 + sectorsFor m.length] ∧
    (∀ n : Nat, sectorsFor n = max 1 ((n + 2047) / 2048)) ∧
    sectorsFor 0 = 1 ∧
    totalSectorsOf m.length u.length = 19 + sectorsFor m.length + sectorsFor u.length ∧
    (extentsList m.length u.length).getD 0 0 = 19 ∧
    (extentsList m.length u.length).getD 1 0 =
      (extentsList m.length u.length).getD 0 0 + sectorsFor m.length ∧
    19 ≤ (extentsList m.length u.length).getD 0 0 ∧
    19 ≤ (extentsList m.length u.length).getD 1 0 := by
  refine ⟨rfl, sectorsFor_max, rfl, rfl, rfl, rfl, ?_, ?_⟩
  · rw [show (extentsList m.length u.length).getD 0 0 = 19 from rfl]
  · rw [show (extentsList m.length u.length).getD 1 0 = 19 + sectorsFor m.length from rfl]
    omega

/-- C4: Size and volume-space-size consistency — the output byte length is a
multiple of 2048, exceeds 16 * 2048, and equals 2048 times the little-endian
u32 at byte offset 80 of the PVD sector (LBA 16), for every input pair whose
total sector count fits a u32 (always true for buffers JavaScript can build). -/
theorem c4_size_consistency (u m : List Nat)
    (h : totalSectorsOf m.length u.length < 4294967296) :
    (makeCloudInitIso u m).length % 2048 = 0 ∧
    16 * 2048 < (makeCloudInitIso u m).length ∧
    readLE (makeCloudInitIso u m) (16 * 2048 + 80) 4 * 2048 = (makeCloudInitIso u m).length := by
  obtain ⟨hlen, hpvd, _⟩ := make_sectors u m
  have hsm := sectorsFor_pos m.length
  have hsu := sectorsFor_pos u.length
  have htot := totalSectorsOf_eq m.length u.length
  refine ⟨by rw [hlen]; omega, by rw [hlen]; omega, ?_⟩
  rw [← readLE_slice (makeCloudInitIso u m) (16 * 2048) 2048 80 4 (by omega), hpvd, pvd_total,
      Nat.mod_eq_of_lt h, hlen]

/-- Witness for C4 at the concrete input pair of two empty payloads. -/
theorem c4_size_consistency_witness :
    totalSectorsOf ([] : List Nat).length ([] : List Nat).length < 4294967296 ∧
    ((makeCloudInitIso [] []).length % 2048 = 0 ∧
     16 * 2048 < (makeCloudInitIso [] []).length ∧
     readLE (makeCloudInitIso [] []) (16 * 2048 + 80) 4 * 2048 = (makeCloudInitIso [] []).length) :=
  ⟨by decide, c4_size_consistency [] [] (by decide)⟩

/-- C5: Root directory sector contents — parsing the sector at LBA 18 as a
sequence of self-length-prefixed directory records yields exactly four
entries in order (dot, dotdot, META-DATA, USER-DATA, with record lengths
34, 34, 42, 42); and every dirRecord's total length is 33 + nameLength plus
one extra zero pad byte exactly when the name length is even, hence always
even. -/
theorem c5_root_directory_records (u m : List Nat)
    (hm : m.length < 4294967296) (hu : u.length < 4294967296) :
    parseRootDir (makeCloudInitIso u m) =
      [dotEnt, dotdotEnt, metaEnt m.length, userEnt m.length u.length] ∧
    (parseRootDir (makeCloudInitIso u m)).map (fun e => e.recLen) = [34, 34, 42, 42] ∧
    (∀ nb : List Nat, ∀ d : Bool, ∀ e l : Nat,
      (dirRecord nb d e l).length = 33 + nb.length + (if nb.length % 2 = 0 then 1 else 0) ∧
      (dirRecord nb d e l).length % 2 = 0) := by
  have hp := parseRootDir_make u m hm hu
  refine ⟨hp, by rw [hp]; rfl, fun nb d e l => ⟨dirRecord_length nb d e l, ?_⟩⟩
  rw [dirRecord_length]
  split <;> omega

/-- Witness for C5 at the concrete input pair of two empty payloads. -/
theorem c5_root_directory_records_witness :
    ([] : List Nat).length < 4294967296 ∧ ([] : List Nat).length < 4294967296 ∧
    (parseRootDir (makeCloudInitIso [] []) =
      [dotEnt, dotdotEnt, metaEnt ([] : List Nat).length,
       userEnt ([] : List Nat).length ([] : List Nat).length] ∧
    (parseRootDir (makeCloudInitIso [] [])).map (fun e => e.recLen) = [34, 34, 42, 42] ∧
    (∀ nb : List Nat, ∀ d : Bool, ∀ e l : Nat,
      (dirRecord nb d e l).length = 33 + nb.length + (if nb.length % 2 = 0 then 1 else 0) ∧
      (dirRecord nb d e l).length % 2 = 0)) :=
  ⟨by decide, by decide, c5_root_directory_records [] [] (by decide) (by decide)⟩

/-- C6: Both-endian field encoding — u32b and u16b write the little-endian
bytes immediately followed by the big-endian bytes of the same value (the
big-endian half is the reverse of the little-endian half, and both halves
decode to the value); in the image, the little-endian u16 at offset 128 of
LBA 16 and the big-endian u16 at offset 130 both equal 2048, and the
both-endian extent field of the embedded root directory record at offset 156
of LBA 16 decodes to 18 in both halves (offsets 158 and 162). -/
theorem c6_both_endian (u m : List Nat) :
    (∀ v : Nat, slice (u32b v) 0 4 = (slice (u32b v) 4 4).reverse ∧
      readLE (u32b v) 0 4 = v % 4294967296 ∧ readBE (u32b v) 4 4 = v % 4294967296) ∧
    (∀ v : Nat, slice (u16b v) 0 2 = (slice (u16b v) 2 2).reverse ∧
      readLE (u16b v) 0 2 = v % 65536 ∧ readBE (u16b v) 2 2 = v % 65536) ∧
    readLE (makeCloudInitIso u m) (16 * 2048 + 128) 2 = 2048 ∧
    readBE (makeCloudInitIso u m) (16 * 2048 + 130) 2 = 2048 ∧
    readLE (makeCloudInitIso u m) (16 * 2048 + 158) 4 = 18 ∧
    readBE (makeCloudInitIso u m) (16 * 2048 + 162) 4 = 18 := by
  obtain ⟨_, hpvd, _⟩ := make_sectors u m
  refine ⟨fun v => ⟨rfl, u32b_le v, u32b_be v⟩, fun v => ⟨rfl, u16b_le v, u16b_be v⟩,
    ?_, ?_, ?_, ?_⟩
  · rw [← readLE_slice (makeCloudInitIso u m) (16 * 2048) 2048 128 2 (by omega), hpvd, pvd_bsLE]
  · rw [← readBE_slice (makeCloudInitIso u m) (16 * 2048) 2048 130 2 (by omega), hpvd, pvd_bsBE]
  · rw [← readLE_slice (makeCloudInitIso u m) (16 * 2048) 2048 158 4 (by omega), hpvd, pvd_rootLE]
  · rw [← readBE_slice (makeCloudInitIso u m) (16 * 2048) 2048 162 4 (by omega), hpvd, pvd_rootBE]

/-- C7: Fixed descriptor fields — byte 0 of LBA 16 is 1, bytes [1,6) are
"CD001", byte 6 is 1; byte 0 of LBA 17 is 255, bytes [1,6) are "CD001",
byte 6 is 1; bytes [40,72) of LBA 16 are "CIDATA" left-justified and padded
with spaces, so right-trimming spaces yields exactly "CIDATA". -/
theorem c7_fixed_descriptor_fields (u m : List Nat) :
    slice (makeCloudInitIso u m) (16 * 2048) 7 = 1 :: (cd001 ++ [1]) ∧
    slice (makeCloudInitIso u m) (17 * 2048) 7 = 255 :: (cd001 ++ [1]) ∧
    slice (makeCloudInitIso u m) (16 * 2048 + 40) 32 = cidata ++ List.replicate 26 32 ∧
    rtrimSpace (slice (makeCloudInitIso u m) (16 * 2048 + 40) 32) = cidata := by
  obtain ⟨_, hpvd, hvdst, _⟩ := make_sectors u m
  have h3 : slice (makeCloudInitIso u m) (16 * 2048 + 40) 32 =
      cidata ++ List.replicate 26 32 := by
    rw [← slice_slice (makeCloudInitIso u m) (16 * 2048) 2048 40 32 (by omega), hpvd, pvd_volid]
  refine ⟨?_, ?_, h3, ?_⟩
  · rw [← slice_sub (makeCloudInitIso u m) (16 * 2048) 2048 7 (by omega), hpvd, pvd_head]
  · rw [← slice_sub (makeCloudInitIso u m) (17 * 2048) 2048 7 (by omega), hvdst, vdst_head]
  · rw [h3]
    decide

/-- C8: Totality and empty-input validity — makeCloudInitIso is a total
function of its two byte-list inputs whose output always has the computed
sector-aligned length, and on two empty strings the image is sector-aligned,
exceeds 16 sectors, and has PVD type byte (byte 0 of LBA 16) equal to 1. -/
theorem c8_totality_empty_input (u m : List Nat) :
    (makeCloudInitIso u m).length = totalSectorsOf m.length u.length * 2048 ∧
    (makeCloudInitIso [] []).length % 2048 = 0 ∧
    16 * 2048 < (makeCloudInitIso [] []).length ∧
    slice (makeCloudInitIso [] []) (16 * 2048) 1 = [1] := by
  refine ⟨(make_sectors u m).1, ?_, ?_, ?_⟩
  · rw [(make_sectors ([] : List Nat) ([] : List Nat)).1]
    decide
  · rw [(make_sectors ([] : List Nat) ([] : List Nat)).1]
    decide
  · obtain ⟨_, hpvd, _⟩ := make_sectors ([] : List Nat) ([] : List Nat)
    rw [← slice_sub (makeCloudInitIso [] []) (16 * 2048) 2048 1 (by omega), hpvd, pvd_byte0]

/-- C9: Zeroed unwritten regions — the System Area (bytes [0, 16*2048)) is
all zero, and within each file's extent every byte past the file's data
length up to the end of its last occupied sector is zero. -/
theorem c9_zeroed_regions (u m : List Nat) :
    slice (makeCloudInitIso u m) 0 (16 * 2048) = List.replicate (16 * 2048) 0 ∧
    slice (makeCloudInitIso u m) (19 * 2048 + m.length)
        (sectorsFor m.length * 2048 - m.length) =
      List.replicate (sectorsFor m.length * 2048 - m.length) 0 ∧
    slice (makeCloudInitIso u m) ((19 + sectorsFor m.length) * 2048 + u.length)
        (sectorsFor u.length * 2048 - u.length) =
      List.replicate (sectorsFor u.length * 2048 - u.length) 0 := by
  obtain ⟨_, _, _, _, _, _, h7, h8, h9⟩ := make_sectors u m
  exact ⟨h7, h8, h9⟩

/-- C10: No path tables — the PVD's both-endian path-table-size field
(8 bytes at offset 132 of LBA 16) encodes 0 in both halves, the path-table
location fields (bytes 140-151 of LBA 16) are all zero, and no sector is
reserved for a path table: the first file extent begins at LBA 19, directly
after the root directory sector at LBA 18. -/
theorem c10_no_path_tables (u m : List Nat) :
    slice (makeCloudInitIso u m) (16 * 2048 + 132) 8 = List.replicate 8 0 ∧
    slice (makeCloudInitIso u m) (16 * 2048 + 140) 12 = List.replicate 12 0 ∧
    readLE (makeCloudInitIso u m) (16 * 2048 + 132) 4 = 0 ∧
    readBE (makeCloudInitIso u m) (16 * 2048 + 136) 4 = 0 ∧
    (extentsList m.length u.length).getD 0 0 = 18 + 1 := by
  obtain ⟨_, hpvd, _⟩ := make_sectors u m
  refine ⟨?_, ?_, ?_, ?_, rfl⟩
  · rw [← slice_slice (makeCloudInitIso u m) (16 * 2048) 2048 132 8 (by omega), hpvd, pvd_ptsize]
  · rw [← slice_slice (makeCloudInitIso u m) (16 * 2048) 2048 140 12 (by omega), hpvd, pvd_ptloc]
  · rw [← readLE_slice (makeCloudInitIso u m) (16 * 2048) 2048 132 4 (by omega), hpvd, pvd_ptLE]
  · rw [← readBE_slice (makeCloudInitIso u m) (16 * 2048) 2048 136 4 (by omega), hpvd, pvd_ptBE]

end CloudInitIso
